import Mathlib

/-!
Verification development for the hitcastor-evidence-store library.

The embedding models the source files:
* `src/lib/hash.ts` — SHA-256 digest (`sha256`), `verifyHash`,
  `generateIntegrityMetadata` (the clock read is made an explicit parameter);
* `src/lib/s3-store.ts` — `S3Store` (the S3 client send outcome is an
  explicit `Except` parameter);
* `src/lib/ipfs-store.ts` — `IPFSStore` (likewise for `add`/`cat`);
* `src/lib/evidence-store.ts` — the `EvidenceStore` orchestrator;
* `src/lib/types.ts` — the result/config record types.

Payloads are byte sequences, modelled as `List Nat`.  JavaScript string
truthiness (`""` is falsy) is modelled explicitly by `truthy`/`jsOrElse`,
because the orchestrator tests selector fields with `&&` and `||`.
-/

set_option maxRecDepth 8000

namespace Hitcastor

/-! ## SHA-256 (the digest used by `sha256` in hash.ts via node crypto) -/

def w32 : Nat := 4294967296

def mask32 : Nat := 4294967295

def add32 (a b : Nat) : Nat := (a + b) % w32

def rotr32 (n x : Nat) : Nat := ((x >>> n) ||| (x <<< (32 - n))) &&& mask32

def not32 (x : Nat) : Nat := x ^^^ mask32

def ch32 (x y z : Nat) : Nat := (x &&& y) ^^^ (not32 x &&& z)

def maj32 (x y z : Nat) : Nat := (x &&& y) ^^^ (x &&& z) ^^^ (y &&& z)

def bsig0 (x : Nat) : Nat := rotr32 2 x ^^^ rotr32 13 x ^^^ rotr32 22 x

def bsig1 (x : Nat) : Nat := rotr32 6 x ^^^ rotr32 11 x ^^^ rotr32 25 x

def ssig0 (x : Nat) : Nat := rotr32 7 x ^^^ rotr32 18 x ^^^ (x >>> 3)

def ssig1 (x : Nat) : Nat := rotr32 17 x ^^^ rotr32 19 x ^^^ (x >>> 10)

structure SHA256State where
  a : Nat
  b : Nat
  c : Nat
  d : Nat
  e : Nat
  f : Nat
  g : Nat
  h : Nat
deriving DecidableEq

def sha256InitState : SHA256State :=
  ⟨0x6a09e667, 0xbb67ae85, 0x3c6ef372, 0xa54ff53a,
   0x510e527f, 0x9b05688c, 0x1f83d9ab, 0x5be0cd19⟩

def sha256K : List Nat :=
  [0x428a2f98, 0x71374491, 0xb5c0fbcf, 0xe9b5dba5, 0x3956c25b, 0x59f111f1] ++
  [0x923f82a4, 0xab1c5ed5, 0xd807aa98, 0x12835b01, 0x243185be, 0x550c7dc3] ++
  [0x72be5d74, 0x80deb1fe, 0x9bdc06a7, 0xc19bf174, 0xe49b69c1, 0xefbe4786] ++
  [0x0fc19dc6, 0x240ca1cc, 0x2de92c6f, 0x4a7484aa, 0x5cb0a9dc, 0x76f988da] ++
  [0x983e5152, 0xa831c66d, 0xb00327c8, 0xbf597fc7, 0xc6e00bf3, 0xd5a79147] ++
  [0x06ca6351, 0x14292967, 0x27b70a85, 0x2e1b2138, 0x4d2c6dfc, 0x53380d13] ++
  [0x650a7354, 0x766a0abb, 0x81c2c92e, 0x92722c85, 0xa2bfe8a1, 0xa81a664b] ++
  [0xc24b8b70, 0xc76c51a3, 0xd192e819, 0xd6990624, 0xf40e3585, 0x106aa070] ++
  [0x19a4c116, 0x1e376c08, 0x2748774c, 0x34b0bcb5, 0x391c0cb3, 0x4ed8aa4a] ++
  [0x5b9cca4f, 0x682e6ff3, 0x748f82ee, 0x78a5636f, 0x84c87814, 0x8cc70208] ++
  [0x90befffa, 0xa4506ceb, 0xbef9a3f7, 0xc67178f2]

/-- Big-endian byte rendering of `n` on `k` bytes. -/
def toBytesBE : Nat → Nat → List Nat
  | 0, _ => []
  | k + 1, n => toBytesBE k (n >>> 8) ++ [n &&& 255]

/-- SHA-256 padding: append `0x80`, zero bytes, and the 64-bit big-endian bit length. -/
def padMessage (m : List Nat) : List Nat :=
  let padZeros := (119 - (m.length % 64)) % 64
  m ++ [128] ++ List.replicate padZeros 0 ++ toBytesBE 8 (8 * m.length)

/-- Split a byte list into 64-byte blocks (fuel-driven). -/
def chunks64 : Nat → List Nat → List (List Nat)
  | 0, _ => []
  | _, [] => []
  | fuel + 1, l => l.take 64 :: chunks64 fuel (l.drop 64)

/-- Pack bytes into big-endian 32-bit words. -/
def bytesToWords : List Nat → List Nat
  | b0 :: b1 :: b2 :: b3 :: rest =>
      ((b0 <<< 24) ||| (b1 <<< 16) ||| (b2 <<< 8) ||| b3) :: bytesToWords rest
  | _ => []

/-- One extension step of the SHA-256 message schedule. -/
def scheduleStep (w : List Nat) : List Nat :=
  let t := w.length
  w ++ [add32 (add32 (ssig1 (w.getD (t - 2) 0)) (w.getD (t - 7) 0))
          (add32 (ssig0 (w.getD (t - 15) 0)) (w.getD (t - 16) 0))]

def applyN {α : Type} (f : α → α) : Nat → α → α
  | 0, x => x
  | n + 1, x => applyN f n (f x)

/-- Extend the 16 block words to the full 64-word schedule. -/
def messageSchedule (w16 : List Nat) : List Nat := applyN scheduleStep 48 w16

/-- One SHA-256 compression round, consuming a (round constant, schedule word) pair. -/
def sha256Round (s : SHA256State) (kw : Nat × Nat) : SHA256State :=
  let t1 := add32 s.h (add32 (bsig1 s.e) (add32 (ch32 s.e s.f s.g) (add32 kw.1 kw.2)))
  let t2 := add32 (bsig0 s.a) (maj32 s.a s.b s.c)
  ⟨add32 t1 t2, s.a, s.b, s.c, add32 s.d t1, s.e, s.f, s.g⟩

/-- Compress one 64-byte block into the running state. -/
def compressBlock (s : SHA256State) (block : List Nat) : SHA256State :=
  let w := messageSchedule (bytesToWords block)
  let f := (List.zip sha256K w).foldl sha256Round s
  ⟨add32 s.a f.a, add32 s.b f.b, add32 s.c f.c, add32 s.d f.d,
   add32 s.e f.e, add32 s.f f.f, add32 s.g f.g, add32 s.h f.h⟩

/-- The eight 32-bit digest words of a byte sequence. -/
def sha256Words (m : List Nat) : List Nat :=
  let padded := padMessage m
  let final := (chunks64 padded.length padded).foldl compressBlock sha256InitState
  [final.a, final.b, final.c, final.d, final.e, final.f, final.g, final.h]

/-- Lowercase hexadecimal digit for a nibble. -/
def hexDigit (n : Nat) : Char :=
  if n < 10 then Char.ofNat (48 + n) else Char.ofNat (87 + n)

/-- The eight hex characters of one 32-bit word, most significant nibble first. -/
def wordHexChars (w : Nat) : List Char :=
  [hexDigit ((w >>> 28) % 16), hexDigit ((w >>> 24) % 16), hexDigit ((w >>> 20) % 16),
   hexDigit ((w >>> 16) % 16), hexDigit ((w >>> 12) % 16), hexDigit ((w >>> 8) % 16),
   hexDigit ((w >>> 4) % 16), hexDigit (w % 16)]

def hexChars : List Nat → List Char
  | [] => []
  | w :: ws => wordHexChars w ++ hexChars ws

/-! ## hash.ts -/

/-- `sha256` from hash.ts: `'0x' + createHash('sha256').update(input).digest('hex')`. -/
def sha256 (input : List Nat) : String :=
  "0x" ++ String.mk (hexChars (sha256Words input))

/-- `verifyHash` from hash.ts: recompute and compare for exact string equality. -/
def verifyHash (data : List Nat) (expectedHash : String) : Bool :=
  sha256 data == expectedHash

structure IntegrityMetadata where
  hash : String
  size : Nat
  timestamp : String
deriving DecidableEq

/-- `generateIntegrityMetadata` from hash.ts.  The system-clock read
(`new Date().toISOString()`) is modelled as the explicit `now` argument. -/
def generateIntegrityMetadata (data : List Nat) (now : String) : IntegrityMetadata :=
  { hash := sha256 data, size := data.length, timestamp := now }

/-! ## types.ts -/

structure S3Config where
  endpoint : String
  region : String
  accessKeyId : String
  secretAccessKey : String
  bucket : String
  objectLockEnabled : Option Bool
deriving DecidableEq

structure IPFSConfig where
  endpoint : String
  timeout : Option Nat
deriving DecidableEq

structure EvidenceStoreConfig where
  s3 : Option S3Config
  ipfs : Option IPFSConfig
deriving DecidableEq

structure StoreResult where
  hash : String
  size : Nat
  s3Key : Option String
  ipfsHash : Option String
  timestamp : String
deriving DecidableEq

structure RetrieveResult where
  data : List Nat
  metadata : IntegrityMetadata
deriving DecidableEq

structure EvidenceMetadata where
  hash : String
  size : Nat
  timestamp : String
  s3Key : Option String
  ipfsHash : Option String
  verified : Bool
deriving DecidableEq

/-- A retrieval/probe selector (`{ s3Key?, ipfsHash? }`). -/
structure Source where
  s3Key : Option String
  ipfsHash : Option String
deriving DecidableEq

/-! ## JavaScript truthiness helpers

The orchestrator tests `string | undefined` fields with `&&`/`||`/`!`;
an empty string is falsy in JavaScript, so presence alone is not enough. -/

/-- Truthiness of a `string | undefined` value: present and non-empty. -/
def truthy : Option String → Bool
  | some s => !(s == "")
  | none => false

/-- JavaScript `a || b` on a `string | undefined` value `a` with string default `b`. -/
def jsOrElse (o : Option String) (d : String) : String :=
  match o with
  | some s => if s == "" then d else s
  | none => d

/-- `r.status === 'rejected'` on a settled promise outcome. -/
def settledIsError {α : Type} : Except String α → Bool
  | .error _ => true
  | .ok _ => false

/-! ## s3-store.ts -/

/-- The `S3Store` fields the orchestration logic reads (the AWS client itself
is external; its send outcomes are explicit parameters of each operation). -/
structure S3Store where
  bucket : String
  objectLockEnabled : Bool
deriving DecidableEq

/-- `new S3Store(config)`: `objectLockEnabled = config.objectLockEnabled ?? false`. -/
def S3Store.ofConfig (c : S3Config) : S3Store :=
  { bucket := c.bucket, objectLockEnabled := c.objectLockEnabled.getD false }

/-- The `PutObjectCommand` that `S3Store.store` sends, including the
integrity metadata embedded as object attributes. -/
structure PutObjectCommand where
  bucket : String
  key : String
  body : List Nat
  contentHash : String
  contentSize : String
  uploadTimestamp : String
  objectLock : Bool
deriving DecidableEq

/-- The put command built by `S3Store.store` (s3-store.ts lines 26-43):
metadata is recomputed here from the payload, with this call's own clock
read `now`; the key defaults to `evidence/` plus the unprefixed hash
(`key ?? ...`, nullish coalescing, so an empty-string override is kept). -/
def S3Store.putCommand (st : S3Store) (data : List Nat) (now : String)
    (key : Option String) : PutObjectCommand :=
  let metadata := generateIntegrityMetadata data now
  let objectKey := key.getD ("evidence/" ++ metadata.hash.drop 2)
  { bucket := st.bucket, key := objectKey, body := data,
    contentHash := metadata.hash, contentSize := toString metadata.size,
    uploadTimestamp := metadata.timestamp, objectLock := st.objectLockEnabled }

/-- `S3Store.store`: send the put command (outcome `putOutcome`) and, on
success, return a `StoreResult` from this call's own metadata. -/
def S3Store.store (st : S3Store) (putOutcome : Except String Unit)
    (data : List Nat) (now : String) (key : Option String) : Except String StoreResult :=
  let metadata := generateIntegrityMetadata data now
  let cmd := st.putCommand data now key
  match putOutcome with
  | .error e => .error e
  | .ok _ =>
    .ok { hash := metadata.hash, size := metadata.size, s3Key := some cmd.key,
          ipfsHash := none, timestamp := metadata.timestamp }

/-- The response of the S3 `GetObjectCommand`: optional body stream and the
string-valued object attributes `content-hash` / `upload-timestamp`. -/
structure S3GetResponse where
  body : Option (List Nat)
  contentHash : Option String
  uploadTimestamp : Option String
deriving DecidableEq

/-- `S3Store.retrieve` (s3-store.ts lines 55-82): propagate a failed send;
raise `Object not found` when the body is absent; when the stored
`content-hash` attribute is truthy and does not verify, raise
`Hash verification failed`; otherwise return the data with metadata taken
from the attributes, falling back (JS `||`) to recomputation/current time. -/
def S3Store.retrieve (_st : S3Store) (sendOutcome : Except String S3GetResponse)
    (key : String) (now : String) : Except String RetrieveResult :=
  match sendOutcome with
  | .error e => .error e
  | .ok response =>
    match response.body with
    | none => .error ("Object not found: " ++ key)
    | some data =>
      let storedHash := response.contentHash
      if truthy storedHash && !(verifyHash data (storedHash.getD "")) then
        .error ("Hash verification failed for object: " ++ key)
      else
        .ok { data := data,
              metadata := {
                hash := jsOrElse storedHash (generateIntegrityMetadata data now).hash,
                size := data.length,
                timestamp := jsOrElse response.uploadTimestamp now } }

/-! ## ipfs-store.ts -/

structure IPFSStore where
  timeout : Nat
deriving DecidableEq

/-- `new IPFSStore(config)`: `timeout = config.timeout || 30000` (JS `||`,
so an explicit `0` also falls back to the default). -/
def IPFSStore.ofConfig (c : IPFSConfig) : IPFSStore :=
  { timeout := match c.timeout with
      | some t => if t == 0 then 30000 else t
      | none => 30000 }

/-- `IPFSStore.store`: `client.add` (outcome `addOutcome`, yielding the CID
string on success); metadata is recomputed here with this call's own clock
read `now`. -/
def IPFSStore.store (_st : IPFSStore) (addOutcome : Except String String)
    (data : List Nat) (now : String) : Except String StoreResult :=
  let metadata := generateIntegrityMetadata data now
  match addOutcome with
  | .error e => .error e
  | .ok cid =>
    .ok { hash := metadata.hash, size := metadata.size, s3Key := none,
          ipfsHash := some cid, timestamp := metadata.timestamp }

/-- `IPFSStore.retrieve`: `client.cat` (outcome `catOutcome`, yielding the
bytes); the returned hash/size are recomputed from the bytes and the
timestamp is a fresh clock read. -/
def IPFSStore.retrieve (_st : IPFSStore) (catOutcome : Except String (List Nat))
    (_ipfsHash : String) (now : String) : Except String RetrieveResult :=
  match catOutcome with
  | .error e => .error e
  | .ok data =>
    let metadata := generateIntegrityMetadata data now
    .ok { data := data,
          metadata := { hash := metadata.hash, size := metadata.size, timestamp := now } }

/-! ## evidence-store.ts -/

structure EvidenceStore where
  s3Store : Option S3Store
  ipfsStore : Option IPFSStore
deriving DecidableEq

/-- The `EvidenceStore` constructor: instantiate each configured backend and
throw when neither is configured. -/
def EvidenceStore.make (config : EvidenceStoreConfig) : Except String EvidenceStore :=
  let s3Store := config.s3.map S3Store.ofConfig
  let ipfsStore := config.ipfs.map IPFSStore.ofConfig
  if s3Store.isNone && ipfsStore.isNone then
    .error "At least one store (S3 or IPFS) must be configured"
  else
    .ok { s3Store := s3Store, ipfsStore := ipfsStore }

/-- `EvidenceStore.store` (evidence-store.ts lines 23-55).

`nowOrch`, `nowS3`, `nowIpfs` are the clock reads of the three
`generateIntegrityMetadata` calls (orchestrator, `S3Store.store`,
`IPFSStore.store`); `s3Put`/`ipfsAdd` are the backend I/O outcomes.  The
settled results of the configured backends are collected positionally
(`[s3?, ipfs?].filter(Boolean)`), folded into the result record by the
index test of lines 38-47, and the call throws iff every settled result
was rejected. -/
def EvidenceStore.store (es : EvidenceStore)
    (s3Put : Except String Unit) (ipfsAdd : Except String String)
    (data : List Nat) (nowOrch nowS3 nowIpfs : String) (key : Option String) :
    Except String StoreResult :=
  let metadata := generateIntegrityMetadata data nowOrch
  let results : List (Except String StoreResult) :=
    (match es.s3Store with
     | some st => [st.store s3Put data nowS3 key]
     | none => []) ++
    (match es.ipfsStore with
     | some st => [st.store ipfsAdd data nowIpfs]
     | none => [])
  let base : StoreResult :=
    { hash := metadata.hash, size := metadata.size, s3Key := none, ipfsHash := none,
      timestamp := metadata.timestamp }
  let result := results.enum.foldl (fun acc idxSettlement =>
    match idxSettlement with
    | (index, .ok storeResult) =>
      if index == 0 && es.s3Store.isSome then
        { acc with s3Key := storeResult.s3Key }
      else if (index == 1 && es.s3Store.isSome) || (index == 0 && !es.s3Store.isSome) then
        { acc with ipfsHash := storeResult.ipfsHash }
      else acc
    | (_, .error _) => acc) base
  let failedStores := results.filter settledIsError
  if failedStores.length == results.length then
    .error "All storage operations failed"
  else
    .ok result

/-- `EvidenceStore.retrieve` (evidence-store.ts lines 57-71): try S3 when
`source.s3Key` is truthy and the backend is configured; on S3 failure
rethrow unless `source.ipfsHash` is truthy; then try IPFS when
`source.ipfsHash` is truthy and the backend is configured; otherwise throw
`No valid storage source provided or available`. -/
def EvidenceStore.retrieve (es : EvidenceStore)
    (s3Send : Except String S3GetResponse) (ipfsCat : Except String (List Nat))
    (source : Source) (nowS3 nowIpfs : String) : Except String RetrieveResult :=
  let ipfsBranch : Except String RetrieveResult :=
    match source.ipfsHash, es.ipfsStore with
    | some h, some st =>
      if h == "" then .error "No valid storage source provided or available"
      else st.retrieve ipfsCat h nowIpfs
    | _, _ => .error "No valid storage source provided or available"
  match source.s3Key, es.s3Store with
  | some k, some st =>
    if k == "" then ipfsBranch
    else
      match st.retrieve s3Send k nowS3 with
      | .ok r => .ok r
      | .error e => if truthy source.ipfsHash then ipfsBranch else .error e
  | _, _ => ipfsBranch

/-- `EvidenceStore.verify`: pure delegate to `verifyHash`. -/
def EvidenceStore.verify (data : List Nat) (expectedHash : String) : Bool :=
  verifyHash data expectedHash

/-- `EvidenceStore.getMetadata` (evidence-store.ts lines 77-89): full
retrieve, then recompute the hash of the returned bytes against the
metadata's recorded hash to populate `verified`. -/
def EvidenceStore.getMetadata (es : EvidenceStore)
    (s3Send : Except String S3GetResponse) (ipfsCat : Except String (List Nat))
    (source : Source) (nowS3 nowIpfs : String) : Except String EvidenceMetadata :=
  match es.retrieve s3Send ipfsCat source nowS3 nowIpfs with
  | .error e => .error e
  | .ok result =>
    let verified := verifyHash result.data result.metadata.hash
    .ok { hash := result.metadata.hash, size := result.metadata.size,
          timestamp := result.metadata.timestamp,
          s3Key := source.s3Key, ipfsHash := source.ipfsHash, verified := verified }

/-- The outcome of `EvidenceStore.exists`. -/
structure ExistsResult where
  s3 : Bool
  ipfs : Bool
deriving DecidableEq

/-- `EvidenceStore.exists` (evidence-store.ts lines 91-101): probe each
backend that is configured and named by a truthy selector field
(`Promise.resolve(false)` otherwise); `allSettled` never rejects, and a
rejected probe degrades to `false`. -/
def EvidenceStore.exists (es : EvidenceStore)
    (s3Probe : Except String Bool) (ipfsProbe : Except String Bool)
    (source : Source) : ExistsResult :=
  let s3Settled : Except String Bool :=
    if truthy source.s3Key && es.s3Store.isSome then s3Probe else .ok false
  let ipfsSettled : Except String Bool :=
    if truthy source.ipfsHash && es.ipfsStore.isSome then ipfsProbe else .ok false
  { s3 := match s3Settled with | .ok b => b | .error _ => false,
    ipfs := match ipfsSettled with | .ok b => b | .error _ => false }

/-! ## Auxiliary definitions used by the statements -/

/-- Lowercase hexadecimal characters. -/
def isLowerHexDigit (c : Char) : Bool := ("0123456789abcdef".data).contains c

/-- UTF-8 bytes of `"hello world"`. -/
def helloWorldBytes : List Nat := [104, 101, 108, 108, 111, 32, 119, 111, 114, 108, 100]

/-- Timestamp field of a successful store outcome. -/
def storeResultTimestamp : Except String StoreResult → Option String
  | .ok r => some r.timestamp
  | .error _ => none

/-! ## Helper lemmas about the hex rendering -/

theorem hexDigit_lower_of_lt : ∀ n : Nat, n < 16 → isLowerHexDigit (hexDigit n) = true := by
  decide

theorem wordHexChars_all (w : Nat) : (wordHexChars w).all isLowerHexDigit = true := by
  have m : ∀ x : Nat, x % 16 < 16 := fun x => Nat.mod_lt _ (by omega)
  simp only [wordHexChars, List.all_cons, List.all_nil, Bool.and_true]
  rw [hexDigit_lower_of_lt _ (m _), hexDigit_lower_of_lt _ (m _),
    hexDigit_lower_of_lt _ (m _), hexDigit_lower_of_lt _ (m _),
    hexDigit_lower_of_lt _ (m _), hexDigit_lower_of_lt _ (m _),
    hexDigit_lower_of_lt _ (m _), hexDigit_lower_of_lt _ (m _)]
  rfl

theorem hexChars_length (ws : List Nat) : (hexChars ws).length = 8 * ws.length := by
  induction ws with
  | nil => rfl
  | cons w ws ih =>
    simp only [hexChars, List.length_append, ih, wordHexChars, List.length_cons,
      List.length_nil]
    omega

theorem hexChars_all (ws : List Nat) : (hexChars ws).all isLowerHexDigit = true := by
  induction ws with
  | nil => rfl
  | cons w ws ih => simp [hexChars, List.all_append, ih, wordHexChars_all w]

theorem sha256Words_length (m : List Nat) : (sha256Words m).length = 8 := rfl

/-! ## Claim theorems -/

/-- Claim C6: `sha256` is a pure, deterministic, total function of the input
bytes; its output is always the constant prefix `0x` followed by a 64-character
lowercase hexadecimal digest (66 characters in total); on the UTF-8 bytes of
`"hello world"` it yields the expected digest with size 11, and on the empty
byte sequence the expected digest with size 0. -/
theorem sha256_deterministic_format_and_vectors :
    (∀ b b' : List Nat, b = b' → sha256 b = sha256 b') ∧
    (∀ b : List Nat, ∃ t : String,
        sha256 b = "0x" ++ t ∧ t.length = 64 ∧ t.data.all isLowerHexDigit = true ∧
        (sha256 b).length = 66) ∧
    sha256 helloWorldBytes =
      "0xb94d27b9934d3e08a52e52d7da7dabfac484efe37a5380ee9088f7ace2efcde9" ∧
    (∀ now : String, (generateIntegrityMetadata helloWorldBytes now).size = 11) ∧
    sha256 [] = "0xe3b0c44298fc1c149afbf4c8996fb92427ae41e4649b934ca495991b7852b855" ∧
    (∀ now : String, (generateIntegrityMetadata [] now).size = 0) := by
  refine ⟨fun b b' h => h ▸ rfl, fun b => ⟨String.mk (hexChars (sha256Words b)), rfl, ?_, ?_, ?_⟩,
    by decide, fun now => rfl, by decide, fun now => rfl⟩
  · show (hexChars (sha256Words b)).length = 64
    rw [hexChars_length, sha256Words_length]
  · exact hexChars_all _
  · show ("0x" ++ String.mk (hexChars (sha256Words b))).length = 66
    rw [String.length_append]
    show 2 + (hexChars (sha256Words b)).length = 66
    rw [hexChars_length, sha256Words_length]

/-- Witness for C6 at a concrete input: determinism instantiated on the
`"hello world"` bytes. -/
theorem sha256_deterministic_format_and_vectors_witness :
    helloWorldBytes = helloWorldBytes ∧ sha256 helloWorldBytes = sha256 helloWorldBytes :=
  ⟨rfl, sha256_deterministic_format_and_vectors.1 helloWorldBytes helloWorldBytes rfl⟩

/-- Claim C7: `verifyHash b (sha256 b)` is always true, and for any expected
hash distinct from `sha256 b` — malformed strings included — `verifyHash`
returns false (it is a total comparison, so it never raises). -/
theorem verifyHash_spec (b : List Nat) (expectedHash : String) :
    verifyHash b (sha256 b) = true ∧
    (expectedHash ≠ sha256 b → verifyHash b expectedHash = false) := by
  constructor
  · simp [verifyHash]
  · intro hne
    simp only [verifyHash, beq_eq_false_iff_ne, ne_eq]
    exact fun h => hne h.symm

/-- Witness for C7: the empty byte sequence against its own digest and
against the malformed string `"nope"`. -/
theorem verifyHash_spec_witness :
    "nope" ≠ sha256 [] ∧ verifyHash [] (sha256 []) = true ∧ verifyHash [] "nope" = false :=
  ⟨by decide, (verifyHash_spec [] "nope").1, (verifyHash_spec [] "nope").2 (by decide)⟩

/-- Claim C9: constructing the `EvidenceStore` fails (with the
configuration error) iff neither backend is configured; with at least one
backend configured, construction succeeds. -/
theorem make_configuration_spec (config : EvidenceStoreConfig) :
    (settledIsError (EvidenceStore.make config) = true ↔
      config.s3 = none ∧ config.ipfs = none) ∧
    (config.s3 = none ∧ config.ipfs = none →
      EvidenceStore.make config =
        .error "At least one store (S3 or IPFS) must be configured") := by
  rcases config with ⟨s3, ipfs⟩
  cases s3 <;> cases ipfs <;> simp [EvidenceStore.make, settledIsError]

/-- Witness for C9: the empty configuration is rejected with the
configuration error. -/
theorem make_configuration_spec_witness :
    (⟨none, none⟩ : EvidenceStoreConfig).s3 = none ∧
    (⟨none, none⟩ : EvidenceStoreConfig).ipfs = none ∧
    EvidenceStore.make ⟨none, none⟩ =
      .error "At least one store (S3 or IPFS) must be configured" :=
  ⟨rfl, rfl, (make_configuration_spec ⟨none, none⟩).2 ⟨rfl, rfl⟩⟩

/-- Claim C8: `exists` never raises (it is total, mirroring `allSettled`
capturing every rejection) and each component degrades to `false` whenever
the corresponding backend is not configured, not named by the selector, or
its probe rejects. -/
theorem exists_best_effort_spec (es : EvidenceStore)
    (s3Probe ipfsProbe : Except String Bool) (source : Source) :
    ((es.s3Store = none ∨ source.s3Key = none ∨ settledIsError s3Probe = true) →
        (es.exists s3Probe ipfsProbe source).s3 = false) ∧
    ((es.ipfsStore = none ∨ source.ipfsHash = none ∨ settledIsError ipfsProbe = true) →
        (es.exists s3Probe ipfsProbe source).ipfs = false) := by
  constructor
  · rintro (h | h | h)
    · simp [EvidenceStore.exists, h]
    · simp [EvidenceStore.exists, h, truthy]
    · cases s3Probe with
      | ok b => simp [settledIsError] at h
      | error e =>
        simp only [EvidenceStore.exists]
        cases hk : truthy source.s3Key <;> cases hs : es.s3Store.isSome <;> simp [hk, hs]
  · rintro (h | h | h)
    · simp [EvidenceStore.exists, h]
    · simp [EvidenceStore.exists, h, truthy]
    · cases ipfsProbe with
      | ok b => simp [settledIsError] at h
      | error e =>
        simp only [EvidenceStore.exists]
        cases hk : truthy source.ipfsHash <;> cases hs : es.ipfsStore.isSome <;> simp [hk, hs]

/-- Witness for C8: both backends configured and named, both probes
rejecting; both components degrade to `false`. -/
theorem exists_best_effort_spec_witness :
    settledIsError (α := Bool) (.error "boom") = true ∧
    (EvidenceStore.exists ⟨some ⟨"b", false⟩, some ⟨30000⟩⟩ (.error "boom") (.error "oops")
        ⟨some "k", some "Qm"⟩).s3 = false ∧
    (EvidenceStore.exists ⟨some ⟨"b", false⟩, some ⟨30000⟩⟩ (.error "boom") (.error "oops")
        ⟨some "k", some "Qm"⟩).ipfs = false :=
  ⟨rfl,
   (exists_best_effort_spec ⟨some ⟨"b", false⟩, some ⟨30000⟩⟩ (.error "boom") (.error "oops")
      ⟨some "k", some "Qm"⟩).1 (Or.inr (Or.inr rfl)),
   (exists_best_effort_spec ⟨some ⟨"b", false⟩, some ⟨30000⟩⟩ (.error "boom") (.error "oops")
      ⟨some "k", some "Qm"⟩).2 (Or.inr (Or.inr rfl))⟩

/-- Claim C10 counterexample: the selector's `ipfsHash` is present
(`some ""`), the IPFS backend is not configured, and the S3 read fails —
yet `retrieve` propagates the original S3 error rather than raising the
no-source error, because `if (!source.ipfsHash) throw error` rethrows on a
falsy (empty) `ipfsHash` before the no-source path is ever reached. -/
theorem retrieve_no_ipfs_backend_counterexample :
    EvidenceStore.retrieve ⟨some ⟨"b", false⟩, none⟩ (.error "S3 failed") (.ok [1])
        ⟨some "k", some ""⟩ "TA" "TB" = .error "S3 failed" ∧
    (Source.ipfsHash ⟨some "k", some ""⟩).isSome = true ∧
    (⟨some ⟨"b", false⟩, none⟩ : EvidenceStore).ipfsStore = none :=
  ⟨rfl, rfl, rfl⟩

/-- Claim C10 (amended): when the S3 read fails, the selector also carries
an `ipfsHash`, and the IPFS backend is not configured: if the `ipfsHash` is
non-empty (truthy), the original S3 error is discarded and `retrieve`
raises the no-source error instead; if the `ipfsHash` is present but empty
(falsy), the original S3 error is propagated unchanged. -/
theorem retrieve_discards_error_when_ipfs_unconfigured
    (es : EvidenceStore) (st : S3Store) (s3Send : Except String S3GetResponse)
    (ipfsCat : Except String (List Nat)) (source : Source) (n1 n2 k h e : String)
    (hs3 : es.s3Store = some st) (hk : source.s3Key = some k) (hk' : ¬ k = "")
    (herr : st.retrieve s3Send k n1 = .error e)
    (hh : source.ipfsHash = some h) (hipfs : es.ipfsStore = none) :
    (¬ h = "" → es.retrieve s3Send ipfsCat source n1 n2 =
        .error "No valid storage source provided or available") ∧
    (h = "" → es.retrieve s3Send ipfsCat source n1 n2 = .error e) := by
  rcases source with ⟨sk, ih⟩
  simp only at hk hh
  subst hk hh
  constructor
  · intro hh'
    simp [EvidenceStore.retrieve, hs3, hipfs, hk', hh', herr, truthy]
  · intro hh'
    subst hh'
    simp [EvidenceStore.retrieve, hs3, hipfs, hk', herr, truthy]

/-- Witness for C10 (amended): concrete failing S3 reads with no IPFS
backend configured — a non-empty IPFS hash yields the no-source error, an
empty one propagates the S3 error. -/
theorem retrieve_discards_error_when_ipfs_unconfigured_witness :
    (⟨some ⟨"b", false⟩, none⟩ : EvidenceStore).ipfsStore = none ∧
    EvidenceStore.retrieve ⟨some ⟨"b", false⟩, none⟩ (.error "S3 failed") (.ok [1])
        ⟨some "k", some "Qm"⟩ "TA" "TB" =
      .error "No valid storage source provided or available" ∧
    EvidenceStore.retrieve ⟨some ⟨"b", false⟩, none⟩ (.error "S3 failed") (.ok [1])
        ⟨some "k", some ""⟩ "TA" "TB" = .error "S3 failed" :=
  ⟨rfl,
   (retrieve_discards_error_when_ipfs_unconfigured ⟨some ⟨"b", false⟩, none⟩ ⟨"b", false⟩
      (.error "S3 failed") (.ok [1]) ⟨some "k", some "Qm"⟩ "TA" "TB" "k" "Qm" "S3 failed"
      rfl rfl (by decide) rfl rfl rfl).1 (by decide),
   (retrieve_discards_error_when_ipfs_unconfigured ⟨some ⟨"b", false⟩, none⟩ ⟨"b", false⟩
      (.error "S3 failed") (.ok [1]) ⟨some "k", some ""⟩ "TA" "TB" "k" "" "S3 failed"
      rfl rfl (by decide) rfl rfl rfl).2 rfl⟩

/-- Claim C3 counterexample: the selector's `ipfsHash` is present (`some ""`)
and the IPFS backend is configured, the S3 read fails, and the IPFS read
would succeed — yet `retrieve` propagates the S3 error instead of returning
the IPFS result, because the code tests JavaScript truthiness (`""` is
falsy), not presence. -/
theorem retrieve_fallback_counterexample :
    EvidenceStore.retrieve ⟨some ⟨"b", false⟩, some ⟨30000⟩⟩ (.error "S3 failed") (.ok [1])
        ⟨some "k", some ""⟩ "TA" "TB" = .error "S3 failed" ∧
    (Source.ipfsHash ⟨some "k", some ""⟩).isSome = true ∧
    IPFSStore.retrieve ⟨30000⟩ (.ok [1]) "" "TB" = .ok ⟨[1], ⟨sha256 [1], 1, "TB"⟩⟩ :=
  ⟨rfl, rfl, rfl⟩

/-- Claim C3 (amended): with "present" read as present *and non-empty* (the
code tests JavaScript truthiness): when the S3 read fails, the S3 error is
propagated unchanged whenever `ipfsHash` is absent or empty, and when
`ipfsHash` is present non-empty with the IPFS backend configured, the IPFS
read's result is returned as the call's result. -/
theorem retrieve_fallback_spec (es : EvidenceStore) (st : S3Store)
    (s3Send : Except String S3GetResponse) (ipfsCat : Except String (List Nat))
    (source : Source) (n1 n2 k e : String)
    (hs3 : es.s3Store = some st) (hk : source.s3Key = some k) (hk' : ¬ k = "")
    (herr : st.retrieve s3Send k n1 = .error e) :
    (source.ipfsHash = none → es.retrieve s3Send ipfsCat source n1 n2 = .error e) ∧
    (source.ipfsHash = some "" → es.retrieve s3Send ipfsCat source n1 n2 = .error e) ∧
    (∀ h ist, source.ipfsHash = some h → ¬ h = "" → es.ipfsStore = some ist →
        es.retrieve s3Send ipfsCat source n1 n2 = ist.retrieve ipfsCat h n2) := by
  rcases source with ⟨sk, ih⟩
  simp only at hk
  subst hk
  refine ⟨fun hih => ?_, fun hih => ?_, fun h ist hih hh hipfs => ?_⟩
  · subst hih
    simp [EvidenceStore.retrieve, hs3, hk', herr, truthy]
  · subst hih
    simp [EvidenceStore.retrieve, hs3, hk', herr, truthy]
  · subst hih
    simp [EvidenceStore.retrieve, hs3, hk', herr, truthy, hh, hipfs]

/-- Witness for C3 (amended): concrete failing S3 read with a non-empty
IPFS hash and a configured IPFS backend; the IPFS result is returned. -/
theorem retrieve_fallback_spec_witness :
    (⟨some ⟨"b", false⟩, some ⟨30000⟩⟩ : EvidenceStore).s3Store = some ⟨"b", false⟩ ∧
    S3Store.retrieve ⟨"b", false⟩ (.error "boom") "k" "TA" = .error "boom" ∧
    EvidenceStore.retrieve ⟨some ⟨"b", false⟩, some ⟨30000⟩⟩ (.error "boom") (.ok [5])
        ⟨some "k", some "Qm"⟩ "TA" "TB" = IPFSStore.retrieve ⟨30000⟩ (.ok [5]) "Qm" "TB" :=
  ⟨rfl, rfl,
   (retrieve_fallback_spec ⟨some ⟨"b", false⟩, some ⟨30000⟩⟩ ⟨"b", false⟩ (.error "boom")
      (.ok [5]) ⟨some "k", some "Qm"⟩ "TA" "TB" "k" "boom" rfl rfl (by decide) rfl).2.2
     "Qm" ⟨30000⟩ rfl (by decide) rfl⟩

/-- Claim C5 counterexample: the stored `content-hash` attribute is present
(`some ""`) and differs from the hash recomputed from the retrieved bytes,
yet `S3Store.retrieve` does not raise: the code only verifies a *truthy*
attribute, so a present-but-empty attribute skips verification. -/
theorem s3_retrieve_integrity_counterexample :
    settledIsError (S3Store.retrieve ⟨"b", false⟩ (.ok ⟨some [], some "", none⟩) "k" "T") =
      false ∧
    (S3GetResponse.contentHash ⟨some [], some "", none⟩).isSome = true ∧
    ¬ sha256 [] = "" :=
  ⟨rfl, rfl, by decide⟩

/-- Claim C5 (amended): for every S3 read whose GET succeeded and returned a
body, `S3Store.retrieve` raises iff the stored `content-hash` attribute is
present *with a non-empty value* and differs from the hash recomputed from
the retrieved bytes; on mismatch the error is the integrity error for that
key (distinct from the not-found error raised when the body is absent). -/
theorem s3_retrieve_integrity_spec (st : S3Store) (resp : S3GetResponse)
    (key now : String) (data : List Nat) (hbody : resp.body = some data) :
    (settledIsError (st.retrieve (.ok resp) key now) = true ↔
       ∃ h, resp.contentHash = some h ∧ ¬ h = "" ∧ ¬ sha256 data = h) ∧
    (∀ h, resp.contentHash = some h → ¬ h = "" → ¬ sha256 data = h →
       st.retrieve (.ok resp) key now =
         .error ("Hash verification failed for object: " ++ key)) := by
  rcases resp with ⟨body, contentHash, uploadTimestamp⟩
  simp only at hbody
  subst hbody
  constructor
  · cases contentHash with
    | none => simp [S3Store.retrieve, truthy, settledIsError]
    | some h =>
      by_cases hh : h = ""
      · subst hh
        simp [S3Store.retrieve, truthy, settledIsError]
      · by_cases hv : sha256 data = h <;>
          simp [S3Store.retrieve, truthy, settledIsError, verifyHash, hh, hv]
  · rintro h rfl hh hv
    simp [S3Store.retrieve, truthy, verifyHash, hh, hv]

/-- Witness for C5 (amended): a response carrying a non-empty mismatched
`content-hash` attribute makes the read raise the integrity error. -/
theorem s3_retrieve_integrity_spec_witness :
    (⟨some [7], some "0xbad", none⟩ : S3GetResponse).body = some [7] ∧
    S3Store.retrieve ⟨"b", false⟩ (.ok ⟨some [7], some "0xbad", none⟩) "k" "T" =
      .error "Hash verification failed for object: k" :=
  ⟨rfl,
   (s3_retrieve_integrity_spec ⟨"b", false⟩ ⟨some [7], some "0xbad", none⟩ "k" "T" [7] rfl).2
     "0xbad" rfl (by decide) (by decide)⟩

/-- Claim C4 counterexample: a stored object whose recorded `content-hash`
does not match the hash of the retrieved bytes makes `getMetadata` raise the
backend's integrity error — it does not return `verified: false`, because
`S3Store.retrieve` throws before `getMetadata` can compute the flag. -/
theorem getMetadata_tampered_counterexample :
    EvidenceStore.getMetadata ⟨some ⟨"b", false⟩, none⟩ (.ok ⟨some [], some "0xdead", none⟩)
        (.error "unused") ⟨some "k", none⟩ "T1" "T2" =
      .error "Hash verification failed for object: k" ∧
    ¬ sha256 [] = "0xdead" :=
  ⟨rfl, by decide⟩

/-- Claim C4 (amended): whenever the underlying `retrieve` succeeds,
`getMetadata` returns without raising an `EvidenceMetadata` whose `verified`
flag is true iff the hash recomputed from the retrieved bytes equals the
hash carried in the retrieved metadata; but when a backend itself detects a
tampered stored hash, `retrieve` (and hence `getMetadata`) raises instead of
returning `verified: false`. -/
theorem getMetadata_verified_spec (es : EvidenceStore)
    (s3Send : Except String S3GetResponse) (ipfsCat : Except String (List Nat))
    (source : Source) (n1 n2 : String) (r : RetrieveResult)
    (hr : es.retrieve s3Send ipfsCat source n1 n2 = .ok r) :
    es.getMetadata s3Send ipfsCat source n1 n2 =
      .ok { hash := r.metadata.hash, size := r.metadata.size,
            timestamp := r.metadata.timestamp, s3Key := source.s3Key,
            ipfsHash := source.ipfsHash, verified := verifyHash r.data r.metadata.hash } ∧
    (verifyHash r.data r.metadata.hash = true ↔ sha256 r.data = r.metadata.hash) := by
  constructor
  · simp [EvidenceStore.getMetadata, hr]
  · simp [verifyHash]

/-- Witness for C4 (amended): a successful S3 read with no stored hash
attribute; the recomputed hash matches itself, so `verified` is true. -/
theorem getMetadata_verified_spec_witness :
    EvidenceStore.retrieve ⟨some ⟨"b", false⟩, none⟩ (.ok ⟨some [1, 2], none, none⟩)
        (.error "u") ⟨some "k", none⟩ "T1" "T2" =
      .ok ⟨[1, 2], ⟨sha256 [1, 2], 2, "T1"⟩⟩ ∧
    EvidenceStore.getMetadata ⟨some ⟨"b", false⟩, none⟩ (.ok ⟨some [1, 2], none, none⟩)
        (.error "u") ⟨some "k", none⟩ "T1" "T2" =
      .ok { hash := sha256 [1, 2], size := 2, timestamp := "T1", s3Key := some "k",
            ipfsHash := none, verified := verifyHash [1, 2] (sha256 [1, 2]) } :=
  ⟨rfl,
   (getMetadata_verified_spec ⟨some ⟨"b", false⟩, none⟩ (.ok ⟨some [1, 2], none, none⟩)
      (.error "u") ⟨some "k", none⟩ "T1" "T2" ⟨[1, 2], ⟨sha256 [1, 2], 2, "T1"⟩⟩ rfl).1⟩

/-- Claim C1: for every payload and every backend configuration with at
least one backend, `store` raises the all-backends-failed error iff every
issued backend write fails; when at least one succeeds it returns a
`StoreResult` whose `s3Key` is present iff the S3 write succeeded and whose
`ipfsHash` is present iff the IPFS write succeeded, each field matched to
its originating backend (also when a single configured backend occupies the
first result slot). -/
theorem store_partial_failure_spec (es : EvidenceStore)
    (hcfg : es.s3Store.isSome = true ∨ es.ipfsStore.isSome = true)
    (s3Put : Except String Unit) (ipfsAdd : Except String String)
    (data : List Nat) (n0 n1 n2 : String) (key : Option String) :
    (settledIsError (es.store s3Put ipfsAdd data n0 n1 n2 key) = true ↔
       ((es.s3Store.isSome = true → settledIsError s3Put = true) ∧
        (es.ipfsStore.isSome = true → settledIsError ipfsAdd = true))) ∧
    (∀ r : StoreResult, es.store s3Put ipfsAdd data n0 n1 n2 key = .ok r →
       ((r.s3Key.isSome = true ↔
           (es.s3Store.isSome = true ∧ settledIsError s3Put = false)) ∧
        (r.ipfsHash.isSome = true ↔
           (es.ipfsStore.isSome = true ∧ settledIsError ipfsAdd = false)))) := by
  rcases es with ⟨s3, ipfs⟩
  cases s3 <;> cases ipfs <;> cases s3Put <;> cases ipfsAdd <;>
    simp_all [EvidenceStore.store, S3Store.store, IPFSStore.store, settledIsError,
      List.enum, List.enumFrom]

/-- Witness for C1: both backends configured, S3 write failing, IPFS write
succeeding; the result carries only the IPFS identifier. -/
theorem store_partial_failure_spec_witness :
    (⟨some ⟨"b", false⟩, some ⟨30000⟩⟩ : EvidenceStore).s3Store.isSome = true ∧
    EvidenceStore.store ⟨some ⟨"b", false⟩, some ⟨30000⟩⟩ (.error "S3 failed") (.ok "Qm")
        [] "TA" "TB" "TC" none = .ok ⟨sha256 [], 0, none, some "Qm", "TA"⟩ ∧
    (((⟨sha256 [], 0, none, some "Qm", "TA"⟩ : StoreResult).s3Key.isSome = true ↔
        ((⟨some ⟨"b", false⟩, some ⟨30000⟩⟩ : EvidenceStore).s3Store.isSome = true ∧
         settledIsError (α := Unit) (.error "S3 failed") = false)) ∧
     ((⟨sha256 [], 0, none, some "Qm", "TA"⟩ : StoreResult).ipfsHash.isSome = true ↔
        ((⟨some ⟨"b", false⟩, some ⟨30000⟩⟩ : EvidenceStore).ipfsStore.isSome = true ∧
         settledIsError (α := String) (.ok "Qm") = false))) :=
  ⟨rfl, rfl,
   (store_partial_failure_spec ⟨some ⟨"b", false⟩, some ⟨30000⟩⟩ (Or.inl rfl)
      (.error "S3 failed") (.ok "Qm") [] "TA" "TB" "TC" none).2
     ⟨sha256 [], 0, none, some "Qm", "TA"⟩ rfl⟩

/-- Claim C2 counterexample: the orchestrator computes its metadata with its
own clock read (`TA`), while `S3Store.store` recomputes metadata with a
later clock read (`TB`) and embeds *that* timestamp in the put command, so
the backend embeds a timestamp different from the one in the returned
`StoreResult`. -/
theorem store_metadata_once_counterexample :
    (S3Store.putCommand ⟨"b", false⟩ [] "TB" none).uploadTimestamp = "TB" ∧
    storeResultTimestamp (EvidenceStore.store ⟨some ⟨"b", false⟩, some ⟨30000⟩⟩ (.ok ())
        (.ok "Qm") [] "TA" "TB" "TC" none) = some "TA" ∧
    ¬ ("TB" : String) = "TA" :=
  ⟨rfl, rfl, by decide⟩

/-- Claim C2 (amended): the orchestrator computes integrity metadata before
any backend call and its hash/size/timestamp appear in the returned
`StoreResult`; each backend *recomputes* metadata from the same payload, so
the hash and size it embeds/returns always equal the returned ones, but the
timestamp is that backend's own clock read, which coincides with the
returned timestamp only when the clock reads coincide. -/
theorem store_metadata_spec (es : EvidenceStore) (st : S3Store)
    (s3Put : Except String Unit) (ipfsAdd : Except String String)
    (data : List Nat) (n0 n1 n2 : String) (key : Option String) (r : StoreResult)
    (hs3 : es.s3Store = some st)
    (hok : es.store s3Put ipfsAdd data n0 n1 n2 key = .ok r) :
    r.hash = sha256 data ∧ r.size = data.length ∧ r.timestamp = n0 ∧
    (st.putCommand data n1 key).contentHash = r.hash ∧
    (st.putCommand data n1 key).contentSize = toString r.size ∧
    (st.putCommand data n1 key).uploadTimestamp = n1 ∧
    (∀ ist r', es.ipfsStore = some ist → IPFSStore.store ist ipfsAdd data n2 = .ok r' →
        r'.hash = r.hash ∧ r'.size = r.size ∧ r'.timestamp = n2) := by
  rcases es with ⟨s3, ipfs⟩
  simp only at hs3
  subst hs3
  cases ipfs <;> cases s3Put <;> cases ipfsAdd <;>
    simp_all [EvidenceStore.store, S3Store.store, IPFSStore.store, S3Store.putCommand,
      generateIntegrityMetadata, settledIsError, List.enum, List.enumFrom] <;>
    subst hok <;> simp

/-- Witness for C2 (amended): both backends succeed with distinct clock
reads; the embedded S3 timestamp is the backend's own. -/
theorem store_metadata_spec_witness :
    (⟨some ⟨"b", false⟩, some ⟨30000⟩⟩ : EvidenceStore).s3Store = some ⟨"b", false⟩ ∧
    EvidenceStore.store ⟨some ⟨"b", false⟩, some ⟨30000⟩⟩ (.ok ()) (.ok "Qm")
        [] "TA" "TB" "TC" none =
      .ok ⟨sha256 [], 0, some ("evidence/" ++ (sha256 []).drop 2), some "Qm", "TA"⟩ ∧
    (S3Store.putCommand ⟨"b", false⟩ [] "TB" none).uploadTimestamp = "TB" :=
  ⟨rfl, rfl,
   (store_metadata_spec ⟨some ⟨"b", false⟩, some ⟨30000⟩⟩ ⟨"b", false⟩ (.ok ()) (.ok "Qm")
      [] "TA" "TB" "TC" none
      ⟨sha256 [], 0, some ("evidence/" ++ (sha256 []).drop 2), some "Qm", "TA"⟩
      rfl rfl).2.2.2.2.2.1⟩

end Hitcastor
